import Mathlib

/-!
Verification development for the VAnguard POrtfolio REbalance engine
(src/asset.rs, src/calc.rs, src/holdings.rs).

Modelling conventions of the shallow embedding:
* Rust `f32` values are modelled as rationals (`ℚ`); the source's arithmetic
  expressions are translated verbatim.
* `chrono::NaiveDate` values are modelled as integer day numbers (`ℤ`);
  `Duration::days(365)` becomes `+ 365`.  The boundary date that the source
  computes as `NaiveDate::from_ymd_opt(year - 1, 12, 31)` is passed in
  directly as the day number `previous_year`.
* `chrono::Local::now().year()` is passed in explicitly as `this_year`.
* Rust `Result<T>` (anyhow) becomes `Except String T`; `ensure!(c, msg)`
  becomes `if ¬ c` returning `Except.error msg` at the same program point.
* `HashMap<u32, f32>` (the distributions ledger, defaulting absent entries
  to `0.0` through `or_insert(0.0)`) is modelled as a total function
  `ℕ → ℚ` that starts at the ambient map's values.
* The source panics on `StockSymbol::Empty` in the per-symbol accessors;
  the panic is a precondition violation that no modelled caller reaches, and
  the embedding makes those accessors return `0` / leave the vector
  unchanged on `Empty`.
-/

namespace Vapore

/-- StockSymbol from holdings.rs: the nine supported ETF buckets plus the
money-market sweep VMFXX, the uninitialised sentinel, and the catch-all
variant for unsupported tickers. -/
inductive StockSymbol where
  | VXUS
  | BNDX
  | VTIP
  | BND
  | VWO
  | VO
  | VB
  | VTC
  | VV
  | VMFXX
  | Empty
  | Other (symbol : String)
deriving DecidableEq

/-- ShareValues from holdings.rs: one rational per supported symbol plus the
two auxiliary outside-holdings scalars. -/
@[ext]
structure ShareValues where
  vxus : ℚ
  bndx : ℚ
  bnd : ℚ
  vwo : ℚ
  vo : ℚ
  vb : ℚ
  vtc : ℚ
  vv : ℚ
  vtip : ℚ
  vmfxx : ℚ
  other : ℚ
  outside_bond : ℚ
  outside_stock : ℚ
deriving DecidableEq

/-- ShareValues::new — every slot zero. -/
def ShareValues.new : ShareValues :=
  { vxus := 0, bndx := 0, bnd := 0, vwo := 0, vo := 0, vb := 0, vtc := 0
    vv := 0, vtip := 0, vmfxx := 0, other := 0, outside_bond := 0, outside_stock := 0 }

/-- ShareValues::new_quote — every slot one (the missing-quote sentinel). -/
def ShareValues.new_quote : ShareValues :=
  { vxus := 1, bndx := 1, bnd := 1, vwo := 1, vo := 1, vb := 1, vtc := 1
    vv := 1, vtip := 1, vmfxx := 1, other := 1, outside_bond := 1, outside_stock := 1 }

/-- ShareValues::stock_value — read the slot named by a symbol.  The source
panics on `Empty`; the embedding returns 0 there (no modelled caller passes
`Empty`). -/
def ShareValues.stock_value (s : ShareValues) : StockSymbol → ℚ
  | .VXUS => s.vxus
  | .BNDX => s.bndx
  | .VTIP => s.vtip
  | .BND => s.bnd
  | .VWO => s.vwo
  | .VO => s.vo
  | .VB => s.vb
  | .VTC => s.vtc
  | .VV => s.vv
  | .VMFXX => s.vmfxx
  | .Empty => 0
  | .Other _ => s.other

/-- ShareValues::add_stock_value — overwrite the slot named by a symbol.
The source panics on `Empty`; the embedding is the identity there. -/
def ShareValues.add_stock_value (s : ShareValues) (sym : StockSymbol) (value : ℚ) :
    ShareValues :=
  match sym with
  | .VXUS => { s with vxus := value }
  | .BNDX => { s with bndx := value }
  | .VTIP => { s with vtip := value }
  | .BND => { s with bnd := value }
  | .VWO => { s with vwo := value }
  | .VO => { s with vo := value }
  | .VB => { s with vb := value }
  | .VTC => { s with vtc := value }
  | .VV => { s with vv := value }
  | .VMFXX => { s with vmfxx := value }
  | .Empty => s
  | .Other _ => { s with other := value }

/-- ShareValues::subtract_stock_value — decrement the slot named by a symbol.
The source panics on `Empty`; the embedding is the identity there. -/
def ShareValues.subtract_stock_value (s : ShareValues) (sym : StockSymbol) (value : ℚ) :
    ShareValues :=
  match sym with
  | .VXUS => { s with vxus := s.vxus - value }
  | .BNDX => { s with bndx := s.bndx - value }
  | .VTIP => { s with vtip := s.vtip - value }
  | .BND => { s with bnd := s.bnd - value }
  | .VWO => { s with vwo := s.vwo - value }
  | .VO => { s with vo := s.vo - value }
  | .VB => { s with vb := s.vb - value }
  | .VTC => { s with vtc := s.vtc - value }
  | .VV => { s with vv := s.vv - value }
  | .VMFXX => { s with vmfxx := s.vmfxx - value }
  | .Empty => s
  | .Other _ => { s with other := s.other - value }

/-- ShareValues::total_value — sum of the 11 value slots (auxiliary scalars
excluded). -/
def ShareValues.total_value (s : ShareValues) : ℚ :=
  s.vxus + s.bndx + s.bnd + s.vwo + s.vo + s.vb + s.vtc + s.vv + s.vmfxx + s.vtip + s.other

/-- impl Add for ShareValues — elementwise over all 13 slots. -/
instance : Add ShareValues :=
  ⟨fun a b =>
    { vxus := a.vxus + b.vxus, bndx := a.bndx + b.bndx, bnd := a.bnd + b.bnd
      vwo := a.vwo + b.vwo, vo := a.vo + b.vo, vb := a.vb + b.vb
      vtc := a.vtc + b.vtc, vv := a.vv + b.vv, vtip := a.vtip + b.vtip
      vmfxx := a.vmfxx + b.vmfxx, other := a.other + b.other
      outside_bond := a.outside_bond + b.outside_bond
      outside_stock := a.outside_stock + b.outside_stock }⟩

/-- impl Sub for ShareValues — elementwise over all 13 slots. -/
instance : Sub ShareValues :=
  ⟨fun a b =>
    { vxus := a.vxus - b.vxus, bndx := a.bndx - b.bndx, bnd := a.bnd - b.bnd
      vwo := a.vwo - b.vwo, vo := a.vo - b.vo, vb := a.vb - b.vb
      vtc := a.vtc - b.vtc, vv := a.vv - b.vv, vtip := a.vtip - b.vtip
      vmfxx := a.vmfxx - b.vmfxx, other := a.other - b.other
      outside_bond := a.outside_bond - b.outside_bond
      outside_stock := a.outside_stock - b.outside_stock }⟩

/-- impl Div for ShareValues — elementwise over all 13 slots. -/
instance : Div ShareValues :=
  ⟨fun a b =>
    { vxus := a.vxus / b.vxus, bndx := a.bndx / b.bndx, bnd := a.bnd / b.bnd
      vwo := a.vwo / b.vwo, vo := a.vo / b.vo, vb := a.vb / b.vb
      vtc := a.vtc / b.vtc, vv := a.vv / b.vv, vtip := a.vtip / b.vtip
      vmfxx := a.vmfxx / b.vmfxx, other := a.other / b.other
      outside_bond := a.outside_bond / b.outside_bond
      outside_stock := a.outside_stock / b.outside_stock }⟩

/-- impl Mul for ShareValues — elementwise over all 13 slots. -/
instance : Mul ShareValues :=
  ⟨fun a b =>
    { vxus := a.vxus * b.vxus, bndx := a.bndx * b.bndx, bnd := a.bnd * b.bnd
      vwo := a.vwo * b.vwo, vo := a.vo * b.vo, vb := a.vb * b.vb
      vtc := a.vtc * b.vtc, vv := a.vv * b.vv, vtip := a.vtip * b.vtip
      vmfxx := a.vmfxx * b.vmfxx, other := a.other * b.other
      outside_bond := a.outside_bond * b.outside_bond
      outside_stock := a.outside_stock * b.outside_stock }⟩

/-- US_STOCK_FRACTION from asset.rs. -/
def US_STOCK_FRACTION : ℚ := 2 / 3

/-- EACH_US_STOCK from asset.rs. -/
def EACH_US_STOCK : ℚ := US_STOCK_FRACTION / 3

/-- INT_STOCK_FRACTION from asset.rs. -/
def INT_STOCK_FRACTION : ℚ := 1 / 3

/-- INT_EMERGING from asset.rs. -/
def INT_EMERGING : ℚ := INT_STOCK_FRACTION / 3

/-- INT_TOTAL from asset.rs. -/
def INT_TOTAL : ℚ := INT_STOCK_FRACTION * 2 / 3

/-- US_BOND_FRACTION from asset.rs. -/
def US_BOND_FRACTION : ℚ := 2 / 3

/-- US_CORP_BOND_FRACTION from asset.rs. -/
def US_CORP_BOND_FRACTION : ℚ := US_BOND_FRACTION / 2

/-- US_TOT_BOND_FRACTION from asset.rs. -/
def US_TOT_BOND_FRACTION : ℚ := US_BOND_FRACTION / 2

/-- INT_BOND_FRACTION from asset.rs. -/
def INT_BOND_FRACTION : ℚ := 1 / 3

/-- Allocations from asset.rs: stock, bond and inflation-protected percentages. -/
structure Allocations where
  total_stock : ℚ
  total_bond : ℚ
  total_inflation_protected : ℚ
deriving DecidableEq

/-- Allocations::new — the default 60 percent stock and 40 percent bond split. -/
def Allocations.new : Allocations :=
  { total_stock := 60, total_bond := 40, total_inflation_protected := 0 }

/-- Allocations::retirement from asset.rs.  The current year that the source
reads from the local clock is the explicit parameter `this_year`. -/
def Allocations.retirement (year this_year : ℤ) : Except String Allocations :=
  if 2000 ≤ year ∧ year < 3000 then
    let years_to_retirement : ℚ := ((year - this_year : ℤ) : ℚ)
    if 5 ≤ years_to_retirement ∧ years_to_retirement < 30 then
      let total_stock := 90 - (1.5 * (25 - years_to_retirement))
      .ok { total_stock := total_stock, total_bond := 100 - total_stock
            total_inflation_protected := 0 }
    else if -5 ≤ years_to_retirement ∧ years_to_retirement < 5 then
      let total_stock := 60 - (-2.8 * (years_to_retirement - 5))
      let total_inflation_protected := -1.8 * (years_to_retirement - 5)
      .ok { total_stock := total_stock
            total_bond := 100 - total_stock - total_inflation_protected
            total_inflation_protected := total_inflation_protected }
    else if years_to_retirement < -5 then
      .ok { total_stock := 29, total_bond := 53, total_inflation_protected := 18 }
    else
      .ok { total_stock := 90, total_bond := 10, total_inflation_protected := 0 }
  else .error "Year needs to be between 2000 and 3000"

/-- Allocations::custom from asset.rs. -/
def Allocations.custom (total_stock total_bond total_inflation_protected : ℚ) :
    Except String Allocations :=
  if total_stock + total_bond + total_inflation_protected = 100 then
    .ok { total_stock := total_stock, total_bond := total_bond
          total_inflation_protected := total_inflation_protected }
  else .error "Stock + bond + inflation protected does not equal 100"

/-- SubAllocations from asset.rs: the nine per-bucket percentages. -/
structure SubAllocations where
  us_stock_large : ℚ
  us_stock_mid : ℚ
  us_stock_small : ℚ
  us_tot_bond : ℚ
  us_corp_bond : ℚ
  int_tot_stock : ℚ
  int_emerging_stock : ℚ
  int_bond : ℚ
  inflation_protected : ℚ
deriving DecidableEq

/-- Sum computed inside SubAllocations::new_custom before the tolerance check
(it equals the sum of the nine fields of the result when construction
succeeds). -/
def new_custom_sum (allocations : Allocations) : ℚ :=
  allocations.total_stock * EACH_US_STOCK
    + allocations.total_stock * EACH_US_STOCK
    + allocations.total_stock * EACH_US_STOCK
    + allocations.total_bond * US_TOT_BOND_FRACTION
    + allocations.total_bond * US_CORP_BOND_FRACTION
    + allocations.total_stock * INT_TOTAL
    + allocations.total_stock * INT_EMERGING
    + allocations.total_bond * INT_BOND_FRACTION
    + allocations.total_inflation_protected

/-- SubAllocations::new_custom from asset.rs. -/
def SubAllocations.new_custom (allocations : Allocations) : Except String SubAllocations :=
  if 99.9 ≤ new_custom_sum allocations ∧ new_custom_sum allocations < 100.1 then
    .ok { us_stock_large := allocations.total_stock * EACH_US_STOCK
          us_stock_mid := allocations.total_stock * EACH_US_STOCK
          us_stock_small := allocations.total_stock * EACH_US_STOCK
          us_tot_bond := allocations.total_bond * US_TOT_BOND_FRACTION
          us_corp_bond := allocations.total_bond * US_CORP_BOND_FRACTION
          int_tot_stock := allocations.total_stock * INT_TOTAL
          int_emerging_stock := allocations.total_stock * INT_EMERGING
          int_bond := allocations.total_bond * INT_BOND_FRACTION
          inflation_protected := allocations.total_inflation_protected }
  else .error "Total sub allocations did not add up to 100"

/-- Sum of the nine percentages of a constructed SubAllocations value. -/
def sub_allocation_sum (s : SubAllocations) : ℚ :=
  s.us_stock_large + s.us_stock_mid + s.us_stock_small + s.us_tot_bond
    + s.us_corp_bond + s.int_tot_stock + s.int_emerging_stock + s.int_bond
    + s.inflation_protected

/-- ShareValues::new_target from holdings.rs. -/
def ShareValues.new_target (sub_allocations : SubAllocations)
    (total_vanguard_value other_us_stock_value other_us_bond_value
      other_int_stock_value other_int_bond_value : ℚ) : ShareValues :=
  let total_value := total_vanguard_value + other_us_stock_value + other_us_bond_value
    + other_int_bond_value + other_int_stock_value
  { vxus := (total_value * sub_allocations.int_tot_stock / 100)
      - (other_int_stock_value * 2 / 3)
    bndx := (total_value * sub_allocations.int_bond / 100) - other_int_bond_value
    bnd := (total_value * sub_allocations.us_tot_bond / 100) - (other_us_bond_value / 2)
    vwo := (total_value * sub_allocations.int_emerging_stock / 100)
      - (other_int_stock_value / 3)
    vo := (total_value * sub_allocations.us_stock_mid / 100) - (other_us_stock_value / 3)
    vb := (total_value * sub_allocations.us_stock_small / 100) - (other_us_stock_value / 3)
    vtc := (total_value * sub_allocations.us_corp_bond / 100) - (other_us_bond_value / 2)
    vv := (total_value * sub_allocations.us_stock_large / 100) - (other_us_stock_value / 3)
    vtip := total_value * sub_allocations.inflation_protected / 100
    other := 0
    vmfxx := 0
    outside_bond := other_int_bond_value + other_us_bond_value
    outside_stock := other_us_stock_value + other_int_stock_value }

/-- AccountHoldings from holdings.rs. -/
structure AccountHoldings where
  current : ShareValues
  target : ShareValues
  sale_purchases_needed : ShareValues
deriving DecidableEq

/-- HIGH_TO_LOW_RISK from calc.rs: the nine tradable buckets ordered from
highest risk to lowest risk. -/
def HIGH_TO_LOW_RISK : List StockSymbol :=
  [.VWO, .VXUS, .VB, .VO, .VV, .BNDX, .BND, .VTC, .VTIP]

/-- Folding a cash delta into an account: the source's
`holdings.add_stock_value(VMFXX, holdings.stock_value(VMFXX) + cash_add)`
pattern used for each participating account in retirement_calc. -/
def cash_folded (holdings : ShareValues) (cash_add : ℚ) : ShareValues :=
  holdings.add_stock_value .VMFXX (holdings.stock_value .VMFXX + cash_add)

/-- For-loop with break from retirement_calc in calc.rs: walk the symbols in
order, assign `min(target bucket value, remaining total)` to each bucket of
the accumulator, and break once the remaining total is exhausted.  Returns
the built account target together with the leftover total. -/
def risk_walk (target_overall : ShareValues) :
    List StockSymbol → ℚ → ShareValues → ShareValues × ℚ
  | [], total, acc => (acc, total)
  | stock_symbol :: rest, total, acc =>
    let value := min (target_overall.stock_value stock_symbol) total
    let total' := total - value
    let acc' := acc.add_stock_value stock_symbol value
    if total' ≤ 0 then (acc', total') else risk_walk target_overall rest total' acc'

/-- Modelled from the spec and claim C2: walk the buckets in the given order,
assign each bucket the minimum of the shared-target bucket value and the
remaining account total, and stop once the total is exhausted. -/
def claim_greedy (shared : ShareValues) :
    List StockSymbol → ℚ → ShareValues → ShareValues
  | [], _, acc => acc
  | sym :: rest, remaining, acc =>
    let v := min (shared.stock_value sym) remaining
    let acc' := acc.add_stock_value sym v
    if remaining - v ≤ 0 then acc' else claim_greedy shared rest (remaining - v) acc'

/-- Modelled from claim C2: the nine tradable buckets in the order the claim
lists them. -/
def CLAIM_RISK_ORDER : List StockSymbol :=
  [.VWO, .VXUS, .VB, .VO, .VV, .BNDX, .BND, .VTC, .VTIP]

/-- Shared combined-retirement target computed inside retirement_calc: pool
the cash-folded totals and external additions of every participating
account and size one target vector over them; the zero vector when no
account participates. -/
def retirement_target_overall (sub_allocations : SubAllocations)
    (roth_holdings : ShareValues)
    (roth_us_stock_add roth_us_bond_add roth_int_stock_add roth_int_bond_add
      roth_cash_add : ℚ)
    (traditional_holdings : ShareValues)
    (traditional_us_stock_add traditional_us_bond_add traditional_int_stock_add
      traditional_int_bond_add traditional_cash_add : ℚ)
    (use_brokerage_retirement : Bool)
    (brokerage_holdings : ShareValues)
    (brokerage_us_stock_add brokerage_us_bond_add brokerage_int_stock_add
      brokerage_int_bond_add brokerage_cash_add : ℚ) : ShareValues :=
  let include_roth := decide (roth_holdings.total_value ≠ 0)
  let include_traditional := decide (traditional_holdings.total_value ≠ 0)
  let include_brokerage := use_brokerage_retirement
    && decide (brokerage_holdings.total_value ≠ 0)
  let holdings_value :=
    (if include_roth then (cash_folded roth_holdings roth_cash_add).total_value else 0)
    + (if include_traditional then
        (cash_folded traditional_holdings traditional_cash_add).total_value else 0)
    + (if include_brokerage then
        (cash_folded brokerage_holdings brokerage_cash_add).total_value else 0)
  let us_stock_add := (if include_roth then roth_us_stock_add else 0)
    + (if include_traditional then traditional_us_stock_add else 0)
    + (if include_brokerage then brokerage_us_stock_add else 0)
  let us_bond_add := (if include_roth then roth_us_bond_add else 0)
    + (if include_traditional then traditional_us_bond_add else 0)
    + (if include_brokerage then brokerage_us_bond_add else 0)
  let int_stock_add := (if include_roth then roth_int_stock_add else 0)
    + (if include_traditional then traditional_int_stock_add else 0)
    + (if include_brokerage then brokerage_int_stock_add else 0)
  let int_bond_add := (if include_roth then roth_int_bond_add else 0)
    + (if include_traditional then traditional_int_bond_add else 0)
    + (if include_brokerage then brokerage_int_bond_add else 0)
  if include_brokerage || include_traditional || include_roth then
    ShareValues.new_target sub_allocations holdings_value us_stock_add us_bond_add
      int_stock_add int_bond_add
  else ShareValues.new

/-- retirement_calc from calc.rs.  Returns the optional traditional IRA,
Roth IRA and brokerage account holdings plus the optional overall retirement
target, or a validation error. -/
def retirement_calc (year this_year : ℤ)
    (roth_holdings : ShareValues)
    (roth_us_stock_add roth_us_bond_add roth_int_stock_add roth_int_bond_add
      roth_cash_add : ℚ)
    (traditional_holdings : ShareValues)
    (traditional_us_stock_add traditional_us_bond_add traditional_int_stock_add
      traditional_int_bond_add traditional_cash_add : ℚ)
    (use_brokerage_retirement : Bool)
    (brokerage_holdings : ShareValues)
    (brokerage_us_stock_add brokerage_us_bond_add brokerage_int_stock_add
      brokerage_int_bond_add brokerage_cash_add : ℚ)
    (stock_quotes : ShareValues) :
    Except String
      (Option AccountHoldings × Option AccountHoldings × Option AccountHoldings
        × Option ShareValues) :=
  match (Allocations.retirement year this_year).bind SubAllocations.new_custom with
  | .error e => .error e
  | .ok sub_allocations =>
    let include_roth := decide (roth_holdings.total_value ≠ 0)
    let include_traditional := decide (traditional_holdings.total_value ≠ 0)
    let include_brokerage := use_brokerage_retirement
      && decide (brokerage_holdings.total_value ≠ 0)
    let roth_holdings_final :=
      if include_roth then cash_folded roth_holdings roth_cash_add else ShareValues.new
    let roth_total := if include_roth then roth_holdings_final.total_value else 0
    let traditional_holdings_final :=
      if include_traditional then cash_folded traditional_holdings traditional_cash_add
      else ShareValues.new
    let brokerage_holdings_final :=
      if include_brokerage then cash_folded brokerage_holdings brokerage_cash_add
      else ShareValues.new
    let brokerage_total :=
      if include_brokerage then brokerage_holdings_final.total_value else 0
    let target_overall_retirement := retirement_target_overall sub_allocations
      roth_holdings roth_us_stock_add roth_us_bond_add roth_int_stock_add
      roth_int_bond_add roth_cash_add traditional_holdings traditional_us_stock_add
      traditional_us_bond_add traditional_int_stock_add traditional_int_bond_add
      traditional_cash_add use_brokerage_retirement brokerage_holdings
      brokerage_us_stock_add brokerage_us_bond_add brokerage_int_stock_add
      brokerage_int_bond_add brokerage_cash_add
    let target_overall_retirement_option :=
      if include_brokerage || include_traditional || include_roth then
        some target_overall_retirement
      else none
    match (if include_roth then
            let walked := risk_walk target_overall_retirement HIGH_TO_LOW_RISK
              roth_total ShareValues.new
            if walked.2 ≠ 0 then Except.error "Unexpected leftover roth cash"
            else if ¬(walked.1.total_value > 0.99 * roth_holdings_final.total_value
                ∧ walked.1.total_value < 1.01 * roth_holdings_final.total_value) then
              Except.error "Roth target and total do not match"
            else Except.ok (some (AccountHoldings.mk roth_holdings_final walked.1
                ((walked.1 - roth_holdings_final) / stock_quotes)),
              target_overall_retirement - walked.1)
          else (Except.ok (none, target_overall_retirement) :
            Except String (Option AccountHoldings × ShareValues))) with
    | .error e => .error e
    | .ok (roth_ira_account_option, remaining_after_roth) =>
      match (if include_brokerage then
              let walked := risk_walk target_overall_retirement HIGH_TO_LOW_RISK.reverse
                brokerage_total ShareValues.new
              if walked.2 ≠ 0 then Except.error "Unexpected leftover brokerage cash"
              else if ¬(walked.1.total_value > 0.99 * brokerage_holdings_final.total_value
                  ∧ walked.1.total_value < 1.01 * brokerage_holdings_final.total_value) then
                Except.error "brokerage target and total do not match"
              else Except.ok (some (AccountHoldings.mk brokerage_holdings_final walked.1
                  ((walked.1 - brokerage_holdings_final) / stock_quotes)),
                remaining_after_roth - walked.1)
            else (Except.ok (none, remaining_after_roth) :
              Except String (Option AccountHoldings × ShareValues))) with
      | .error e => .error e
      | .ok (brokerage_account_option, remaining_after_brokerage) =>
        .ok (if include_traditional then
              some (AccountHoldings.mk traditional_holdings_final remaining_after_brokerage
                ((remaining_after_brokerage - traditional_holdings_final) / stock_quotes))
            else none,
          roth_ira_account_option, brokerage_account_option,
          target_overall_retirement_option)

/-- TransactionType from holdings.rs. -/
inductive TransactionType where
  | CONVERSIONOUT
  | DIVIDEND
  | REINVESTMENT
  | ADVISORFEE
  | BUY
  | CONVERSIONIN
  | SELL
  | FUNDSRECEIVED
  | SWEEPOUT
  | SWEEPIN
  | DISTRIBUTION
  | Other (kind : String)
deriving DecidableEq

/-- Transaction from holdings.rs; the trade date is an integer day number. -/
structure Transaction where
  account_number : ℕ
  trade_date : ℤ
  symbol : StockSymbol
  shares : ℚ
  net_amount : ℚ
  transaction_type : TransactionType

/-- Mutable state of the ledger-replay loop in
VanguardHoldings::eoy_traditional_holdings: the running snapshot, the
distributions ledger, the sufficient-history flag and the in-window
transaction count. -/
structure EoyState where
  eoy_holdings : ShareValues
  distributions : ℕ → ℚ
  enough_transaction : Bool
  total_transactions : ℕ

/-- Loop body of VanguardHoldings::eoy_traditional_holdings for one
transaction: transactions newer than the December-31 boundary and belonging
to the target account adjust the snapshot (or, for symbol-less
distributions inside the following 365 days, the distributions ledger);
every other transaction sets the sufficient-history flag. -/
def eoy_step (previous_year following_year : ℤ) (traditional_acct_num : ℕ)
    (st : EoyState) (t : Transaction) : EoyState :=
  if previous_year < t.trade_date ∧ t.account_number = traditional_acct_num then
    let st1 := { st with total_transactions := st.total_transactions + 1 }
    if t.symbol = StockSymbol.VMFXX then
      { st1 with eoy_holdings := st1.eoy_holdings.subtract_stock_value t.symbol t.net_amount }
    else if t.symbol ≠ StockSymbol.Empty then
      { st1 with eoy_holdings := st1.eoy_holdings.subtract_stock_value t.symbol t.shares }
    else if t.transaction_type = TransactionType.DISTRIBUTION then
      if t.trade_date < following_year then
        { st1 with distributions := fun n =>
            if n = t.account_number then st1.distributions n - t.net_amount
            else st1.distributions n }
      else st1
    else st1
  else { st with enough_transaction := true }

/-- VanguardHoldings::eoy_traditional_holdings from holdings.rs.
`previous_year` is the day number of December 31 of the year before the
distribution year (the source computes it from the year via the calendar);
`distributions` is the ambient distributions map (absent entries are 0).
Returns the reconstructed snapshot together with the updated distributions
map, or `none` when the history is insufficient. -/
def eoy_traditional_holdings (transactions : List Transaction) (previous_year : ℤ)
    (traditional_acct_num : ℕ) (trad_holdings : ShareValues)
    (distributions : ℕ → ℚ) : Option (ShareValues × (ℕ → ℚ)) :=
  let following_year := previous_year + 365
  let final := transactions.foldl
    (eoy_step previous_year following_year traditional_acct_num)
    ⟨trad_holdings, distributions, false, 0⟩
  if final.enough_transaction = false then none
  else if final.total_transactions = 0 then none
  else some (final.eoy_holdings, final.distributions)

/-- Modelled from claim C4: the piecewise glide-path allocation as a function
of years to retirement. -/
def glide_path_claim (y : ℚ) : Allocations :=
  if 5 ≤ y ∧ y < 30 then
    { total_stock := 90 - 1.5 * (25 - y), total_bond := 100 - (90 - 1.5 * (25 - y))
      total_inflation_protected := 0 }
  else if -5 ≤ y ∧ y < 5 then
    { total_stock := 60 - (-2.8 * (y - 5))
      total_bond := 100 - (60 - (-2.8 * (y - 5))) - (-1.8 * (y - 5))
      total_inflation_protected := -1.8 * (y - 5) }
  else if y < -5 then
    { total_stock := 29, total_bond := 53, total_inflation_protected := 18 }
  else
    { total_stock := 90, total_bond := 10, total_inflation_protected := 0 }

/-- Boolean filter selecting the transactions that the ledger replay treats
as in-window for the target account. -/
def in_window (previous_year : ℤ) (traditional_acct_num : ℕ) (t : Transaction) : Bool :=
  decide (previous_year < t.trade_date ∧ t.account_number = traditional_acct_num)

/-- Anonymous-constructor helper for concrete ShareValues literals, fields in
declaration order. -/
def mkSV (vxus bndx bnd vwo vo vb vtc vv vtip vmfxx other outside_bond outside_stock : ℚ) :
    ShareValues :=
  { vxus := vxus, bndx := bndx, bnd := bnd, vwo := vwo, vo := vo, vb := vb
    vtc := vtc, vv := vv, vtip := vtip, vmfxx := vmfxx, other := other
    outside_bond := outside_bond, outside_stock := outside_stock }

/-- Concrete ledger for the C1 counterexample: one after-boundary transaction
of another account and one after-boundary transaction of the target
account. -/
def c1_ledger : List Transaction :=
  [{ account_number := 2, trade_date := 1, symbol := .VV, shares := 5
     net_amount := 500, transaction_type := .BUY },
   { account_number := 1, trade_date := 1, symbol := .VV, shares := 5
     net_amount := 500, transaction_type := .BUY }]

/-- Concrete ledger for the C1 witness: a single transaction dated before the
boundary. -/
def c1w_ledger : List Transaction :=
  [{ account_number := 1, trade_date := -3, symbol := .VV, shares := 5
     net_amount := 500, transaction_type := .BUY }]

/-- Concrete brokerage account for the C9 counterexample. -/
def c9_brokerage : ShareValues := mkSV 0 0 0 0 0 0 0 0 0 1000 0 0 0

/-- Concrete traditional account for the C9 witness. -/
def c9w_trad : ShareValues := mkSV 0 0 0 0 0 0 0 0 0 100 0 0 0

/-- Shared target of the C9 witness run (one traditional account worth 100 at
the 90/10/0 allocation). -/
def c9w_shared : ShareValues :=
  mkSV 20 (10/3) (10/3) 10 20 20 (10/3) 20 0 0 0 0 0

/-- Traditional account holdings produced by the C9 witness run. -/
def c9w_ta : AccountHoldings :=
  ⟨c9w_trad, c9w_shared, mkSV 20 (10/3) (10/3) 10 20 20 (10/3) 20 0 (-100) 0 0 0⟩

/-- Concrete Roth account for the C2 and C3 witnesses. -/
def cw_roth : ShareValues := mkSV 0 0 0 0 0 0 0 0 0 100 0 0 0

/-- Concrete traditional account with negative cash for the C3 witness; it
shrinks the pooled target below the Roth total so the ordered walk cannot
consume the Roth total. -/
def c3_trad : ShareValues := mkSV 0 0 0 0 0 0 0 0 0 (-50) 0 0 0

/-- Shared target of the C2 witness run (three accounts worth 100 each at the
90/10/0 allocation). -/
def c2w_shared : ShareValues := mkSV 60 10 10 30 60 60 10 60 0 0 0 0 0

/-- Roth account holdings produced by the C2 witness run. -/
def c2w_ra : AccountHoldings :=
  ⟨cw_roth, mkSV 60 0 0 30 0 10 0 0 0 0 0 0 0, mkSV 60 0 0 30 0 10 0 0 0 (-100) 0 0 0⟩

/-- Brokerage account holdings produced by the C2 witness run. -/
def c2w_ba : AccountHoldings :=
  ⟨cw_roth, mkSV 0 10 10 0 10 0 10 60 0 0 0 0 0, mkSV 0 10 10 0 10 0 10 60 0 (-100) 0 0 0⟩

/-- Traditional account holdings produced by the C2 witness run. -/
def c2w_ta : AccountHoldings :=
  ⟨cw_roth, mkSV 0 0 0 0 50 50 0 0 0 0 0 0 0, mkSV 0 0 0 0 50 50 0 0 0 (-100) 0 0 0⟩

/-! Helper lemmas. -/

theorem ShareValues.add_def (a b : ShareValues) :
    a + b =
      { vxus := a.vxus + b.vxus, bndx := a.bndx + b.bndx, bnd := a.bnd + b.bnd
        vwo := a.vwo + b.vwo, vo := a.vo + b.vo, vb := a.vb + b.vb
        vtc := a.vtc + b.vtc, vv := a.vv + b.vv, vtip := a.vtip + b.vtip
        vmfxx := a.vmfxx + b.vmfxx, other := a.other + b.other
        outside_bond := a.outside_bond + b.outside_bond
        outside_stock := a.outside_stock + b.outside_stock } := rfl

theorem ShareValues.sub_def (a b : ShareValues) :
    a - b =
      { vxus := a.vxus - b.vxus, bndx := a.bndx - b.bndx, bnd := a.bnd - b.bnd
        vwo := a.vwo - b.vwo, vo := a.vo - b.vo, vb := a.vb - b.vb
        vtc := a.vtc - b.vtc, vv := a.vv - b.vv, vtip := a.vtip - b.vtip
        vmfxx := a.vmfxx - b.vmfxx, other := a.other - b.other
        outside_bond := a.outside_bond - b.outside_bond
        outside_stock := a.outside_stock - b.outside_stock } := rfl

theorem ShareValues.div_def (a b : ShareValues) :
    a / b =
      { vxus := a.vxus / b.vxus, bndx := a.bndx / b.bndx, bnd := a.bnd / b.bnd
        vwo := a.vwo / b.vwo, vo := a.vo / b.vo, vb := a.vb / b.vb
        vtc := a.vtc / b.vtc, vv := a.vv / b.vv, vtip := a.vtip / b.vtip
        vmfxx := a.vmfxx / b.vmfxx, other := a.other / b.other
        outside_bond := a.outside_bond / b.outside_bond
        outside_stock := a.outside_stock / b.outside_stock } := rfl

theorem ShareValues.mul_def (a b : ShareValues) :
    a * b =
      { vxus := a.vxus * b.vxus, bndx := a.bndx * b.bndx, bnd := a.bnd * b.bnd
        vwo := a.vwo * b.vwo, vo := a.vo * b.vo, vb := a.vb * b.vb
        vtc := a.vtc * b.vtc, vv := a.vv * b.vv, vtip := a.vtip * b.vtip
        vmfxx := a.vmfxx * b.vmfxx, other := a.other * b.other
        outside_bond := a.outside_bond * b.outside_bond
        outside_stock := a.outside_stock * b.outside_stock } := rfl

theorem risk_walk_fst (shared : ShareValues) :
    ∀ (order : List StockSymbol) (total : ℚ) (acc : ShareValues),
      (risk_walk shared order total acc).1 = claim_greedy shared order total acc := by
  intro order
  induction order with
  | nil => intro total acc; rfl
  | cons sym rest ih =>
    intro total acc
    unfold risk_walk claim_greedy
    dsimp only
    split
    · rfl
    · exact ih _ _

/-! Claim theorems. -/

/-- C10: every target vector produced by ShareValues::new_target has its Cash
(VMFXX) slot and its Other slot equal to exactly 0, and its outside_stock
and outside_bond scalars equal the sums of the supplied external stock
values and external bond values respectively. -/
theorem c10_new_target_cash_other_outside (sub_allocations : SubAllocations)
    (total_vanguard_value other_us_stock_value other_us_bond_value
      other_int_stock_value other_int_bond_value : ℚ) :
    (ShareValues.new_target sub_allocations total_vanguard_value other_us_stock_value
        other_us_bond_value other_int_stock_value other_int_bond_value).vmfxx = 0
    ∧ (ShareValues.new_target sub_allocations total_vanguard_value other_us_stock_value
        other_us_bond_value other_int_stock_value other_int_bond_value).other = 0
    ∧ (ShareValues.new_target sub_allocations total_vanguard_value other_us_stock_value
        other_us_bond_value other_int_stock_value other_int_bond_value).outside_stock
      = other_us_stock_value + other_int_stock_value
    ∧ (ShareValues.new_target sub_allocations total_vanguard_value other_us_stock_value
        other_us_bond_value other_int_stock_value other_int_bond_value).outside_bond
      = other_int_bond_value + other_us_bond_value :=
  ⟨rfl, rfl, rfl, rfl⟩

/-- C7: for Asset Vectors a and b where every slot of b (all 11 value slots
and both auxiliary scalars) is nonzero, the elementwise operators satisfy
the round-trips (a + b) - b = a and (a * b) / b = a. -/
theorem c7_elementwise_roundtrip (a b : ShareValues)
    (h1 : b.vxus ≠ 0) (h2 : b.bndx ≠ 0) (h3 : b.bnd ≠ 0) (h4 : b.vwo ≠ 0)
    (h5 : b.vo ≠ 0) (h6 : b.vb ≠ 0) (h7 : b.vtc ≠ 0) (h8 : b.vv ≠ 0)
    (h9 : b.vtip ≠ 0) (h10 : b.vmfxx ≠ 0) (h11 : b.other ≠ 0)
    (h12 : b.outside_bond ≠ 0) (h13 : b.outside_stock ≠ 0) :
    (a + b) - b = a ∧ (a * b) / b = a := by
  constructor
  · apply ShareValues.ext <;> simp [ShareValues.add_def, ShareValues.sub_def]
  · apply ShareValues.ext <;>
      (simp only [ShareValues.mul_def, ShareValues.div_def]
       exact mul_div_cancel_right₀ _ (by assumption))

/-- Witness for C7 at the zero vector and the all-ones quote vector. -/
theorem c7_witness :
    (ShareValues.new + ShareValues.new_quote) - ShareValues.new_quote = ShareValues.new
    ∧ (ShareValues.new * ShareValues.new_quote) / ShareValues.new_quote = ShareValues.new :=
  c7_elementwise_roundtrip ShareValues.new ShareValues.new_quote
    (by norm_num [ShareValues.new_quote]) (by norm_num [ShareValues.new_quote])
    (by norm_num [ShareValues.new_quote]) (by norm_num [ShareValues.new_quote])
    (by norm_num [ShareValues.new_quote]) (by norm_num [ShareValues.new_quote])
    (by norm_num [ShareValues.new_quote]) (by norm_num [ShareValues.new_quote])
    (by norm_num [ShareValues.new_quote]) (by norm_num [ShareValues.new_quote])
    (by norm_num [ShareValues.new_quote]) (by norm_num [ShareValues.new_quote])
    (by norm_num [ShareValues.new_quote])

/-- C6: every Allocation built by the custom path or the glide path satisfies
stock + bond + inflation-protected = 100 exactly, and custom construction
fails whenever the supplied percentages do not sum to exactly 100. -/
theorem c6_allocation_sum_invariant :
    (∀ s b i a, Allocations.custom s b i = .ok a →
      a.total_stock + a.total_bond + a.total_inflation_protected = 100)
    ∧ (∀ (year this_year : ℤ) a, Allocations.retirement year this_year = .ok a →
      a.total_stock + a.total_bond + a.total_inflation_protected = 100)
    ∧ (∀ s b i, s + b + i ≠ 100 → ∃ e, Allocations.custom s b i = .error e) := by
  refine ⟨?_, ?_, ?_⟩
  · intro s b i a h
    unfold Allocations.custom at h
    split at h
    · cases h
      assumption
    · cases h
  · intro year this_year a h
    unfold Allocations.retirement at h
    split at h
    · dsimp only at h
      split at h
      · cases h; ring
      · split at h
        · cases h; ring
        · split at h
          · cases h; norm_num
          · cases h; norm_num
    · cases h
  · intro s b i hne
    exact ⟨"Stock + bond + inflation protected does not equal 100", by
      unfold Allocations.custom
      rw [if_neg hne]⟩

/-- Witness for C6 at concrete allocations. -/
theorem c6_witness :
    ((Allocations.mk 60 40 0).total_stock + (Allocations.mk 60 40 0).total_bond
      + (Allocations.mk 60 40 0).total_inflation_protected = 100)
    ∧ ((Allocations.mk 46 45 9).total_stock + (Allocations.mk 46 45 9).total_bond
      + (Allocations.mk 46 45 9).total_inflation_protected = 100)
    ∧ ∃ e, Allocations.custom 60 40 5 = .error e := by
  refine ⟨?_, ?_, c6_allocation_sum_invariant.2.2 60 40 5 (by norm_num)⟩
  · exact c6_allocation_sum_invariant.1 60 40 0 _ (by norm_num [Allocations.custom])
  · exact c6_allocation_sum_invariant.2.1 2000 2000 _
      (by norm_num [Allocations.retirement])

/-- C5: deriving a Sub-Allocation from any Allocation whose three percentages
sum to 100 (every Allocation accepted by construction) succeeds with nine
percentages summing to 100, hence within the ±0.1 tolerance; and whenever
the nine percentages fall strictly outside that tolerance the constructor
returns a validation error instead. -/
theorem c5_sub_allocation_tolerance :
    (∀ a : Allocations,
      a.total_stock + a.total_bond + a.total_inflation_protected = 100 →
      ∃ s, SubAllocations.new_custom a = .ok s ∧ sub_allocation_sum s = 100
        ∧ |sub_allocation_sum s - 100| ≤ 0.1)
    ∧ (∀ a : Allocations, 0.1 < |new_custom_sum a - 100| →
      ∃ e, SubAllocations.new_custom a = .error e) := by
  constructor
  · intro a h100
    have hsum : new_custom_sum a = 100 := by
      simp only [new_custom_sum, EACH_US_STOCK, US_STOCK_FRACTION, US_TOT_BOND_FRACTION,
        US_CORP_BOND_FRACTION, US_BOND_FRACTION, INT_TOTAL, INT_STOCK_FRACTION,
        INT_EMERGING, INT_BOND_FRACTION]
      linarith
    have hcond : 99.9 ≤ new_custom_sum a ∧ new_custom_sum a < 100.1 := by
      rw [hsum]; norm_num
    refine ⟨_, by unfold SubAllocations.new_custom; rw [if_pos hcond], ?_, ?_⟩
    · unfold sub_allocation_sum
      dsimp only
      unfold new_custom_sum at hsum
      linarith
    · unfold sub_allocation_sum
      dsimp only
      unfold new_custom_sum at hsum
      rw [show a.total_stock * EACH_US_STOCK + a.total_stock * EACH_US_STOCK
          + a.total_stock * EACH_US_STOCK + a.total_bond * US_TOT_BOND_FRACTION
          + a.total_bond * US_CORP_BOND_FRACTION + a.total_stock * INT_TOTAL
          + a.total_stock * INT_EMERGING + a.total_bond * INT_BOND_FRACTION
          + a.total_inflation_protected - 100 = 0 by linarith]
      norm_num
  · intro a hout
    refine ⟨"Total sub allocations did not add up to 100", ?_⟩
    unfold SubAllocations.new_custom
    rw [if_neg]
    rintro ⟨hle, hlt⟩
    have habs : |new_custom_sum a - 100| ≤ 0.1 :=
      abs_le.mpr ⟨by linarith, by linarith⟩
    linarith

/-- Witness for C5 at the default 60/40/0 allocation and at the all-zero
allocation. -/
theorem c5_witness :
    (∃ s, SubAllocations.new_custom (Allocations.mk 60 40 0) = .ok s
      ∧ sub_allocation_sum s = 100 ∧ |sub_allocation_sum s - 100| ≤ 0.1)
    ∧ ∃ e, SubAllocations.new_custom (Allocations.mk 0 0 0) = .error e := by
  constructor
  · exact c5_sub_allocation_tolerance.1 (Allocations.mk 60 40 0) (by norm_num)
  · refine c5_sub_allocation_tolerance.2 (Allocations.mk 0 0 0) ?_
    norm_num [new_custom_sum, EACH_US_STOCK, US_STOCK_FRACTION, US_TOT_BOND_FRACTION,
      US_CORP_BOND_FRACTION, US_BOND_FRACTION, INT_TOTAL, INT_STOCK_FRACTION,
      INT_EMERGING, INT_BOND_FRACTION]

/-- C4: for every retirement year in [2000, 3000) the glide path returns the
claimed piecewise allocation of the years-to-retirement, and for any year
outside [2000, 3000) it returns a validation error. -/
theorem c4_glide_path (year this_year : ℤ) :
    (2000 ≤ year → year < 3000 →
      Allocations.retirement year this_year =
        .ok (glide_path_claim ((year - this_year : ℤ) : ℚ)))
    ∧ (year < 2000 ∨ 3000 ≤ year →
      ∃ e, Allocations.retirement year this_year = .error e) := by
  constructor
  · intro h1 h2
    unfold Allocations.retirement glide_path_claim
    rw [if_pos ⟨h1, h2⟩]
    dsimp only
    by_cases hc1 : (5 : ℚ) ≤ ((year - this_year : ℤ) : ℚ) ∧ ((year - this_year : ℤ) : ℚ) < 30
    · rw [if_pos hc1, if_pos hc1]
    · rw [if_neg hc1, if_neg hc1]
      by_cases hc2 : (-5 : ℚ) ≤ ((year - this_year : ℤ) : ℚ) ∧ ((year - this_year : ℤ) : ℚ) < 5
      · rw [if_pos hc2, if_pos hc2]
      · rw [if_neg hc2, if_neg hc2]
        by_cases hc3 : ((year - this_year : ℤ) : ℚ) < -5
        · rw [if_pos hc3, if_pos hc3]
        · rw [if_neg hc3, if_neg hc3]
  · intro h
    refine ⟨"Year needs to be between 2000 and 3000", ?_⟩
    unfold Allocations.retirement
    rw [if_neg]
    rintro ⟨ha, hb⟩
    rcases h with h | h <;> omega

/-- Witness for C4: years-to-retirement 10 yields 67.5/32.5/0,
years-to-retirement 0 yields 46/45/9, and an out-of-range year fails. -/
theorem c4_witness :
    Allocations.retirement 2010 2000 =
      .ok { total_stock := 67.5, total_bond := 32.5, total_inflation_protected := 0 }
    ∧ Allocations.retirement 2000 2000 =
      .ok { total_stock := 46, total_bond := 45, total_inflation_protected := 9 }
    ∧ ∃ e, Allocations.retirement 1999 2024 = .error e := by
  refine ⟨?_, ?_, (c4_glide_path 1999 2024).2 (by norm_num)⟩
  · have h := (c4_glide_path 2010 2000).1 (by norm_num) (by norm_num)
    rw [h]
    norm_num [glide_path_claim]
  · have h := (c4_glide_path 2000 2000).1 (by norm_num) (by norm_num)
    rw [h]
    norm_num [glide_path_claim]

theorem eoy_step_enough (previous_year following_year : ℤ) (acct : ℕ)
    (st : EoyState) (t : Transaction) :
    (eoy_step previous_year following_year acct st t).enough_transaction =
      (st.enough_transaction || !(in_window previous_year acct t)) := by
  unfold eoy_step in_window
  by_cases h : previous_year < t.trade_date ∧ t.account_number = acct
  · rw [if_pos h]
    simp only [decide_eq_true h, Bool.not_true, Bool.or_false]
    split
    · rfl
    · split
      · rfl
      · split
        · split
          · rfl
          · rfl
        · rfl
  · rw [if_neg h]
    simp only [decide_eq_false h, Bool.not_false, Bool.or_true]

theorem eoy_step_count (previous_year following_year : ℤ) (acct : ℕ)
    (st : EoyState) (t : Transaction) :
    (eoy_step previous_year following_year acct st t).total_transactions =
      st.total_transactions + (if in_window previous_year acct t then 1 else 0) := by
  unfold eoy_step in_window
  by_cases h : previous_year < t.trade_date ∧ t.account_number = acct
  · rw [if_pos h]
    simp only [decide_eq_true h, if_true]
    split
    · rfl
    · split
      · rfl
      · split
        · split
          · rfl
          · rfl
        · rfl
  · rw [if_neg h]
    simp only [decide_eq_false h, Bool.false_eq_true, if_false]
    omega

theorem eoy_fold_enough (previous_year following_year : ℤ) (acct : ℕ) :
    ∀ (txs : List Transaction) (st : EoyState),
      (txs.foldl (eoy_step previous_year following_year acct) st).enough_transaction =
        (st.enough_transaction || txs.any fun t => !(in_window previous_year acct t)) := by
  intro txs
  induction txs with
  | nil => intro st; simp
  | cons t rest ih =>
    intro st
    simp only [List.foldl_cons, List.any_cons]
    rw [ih, eoy_step_enough]
    rw [Bool.or_assoc]

theorem eoy_fold_count (previous_year following_year : ℤ) (acct : ℕ) :
    ∀ (txs : List Transaction) (st : EoyState),
      (txs.foldl (eoy_step previous_year following_year acct) st).total_transactions =
        st.total_transactions + txs.countP (in_window previous_year acct) := by
  intro txs
  induction txs with
  | nil => intro st; simp
  | cons t rest ih =>
    intro st
    simp only [List.foldl_cons, List.countP_cons]
    rw [ih, eoy_step_count]
    by_cases h : in_window previous_year acct t = true
    · simp only [h, if_true]
      omega
    · simp only [Bool.not_eq_true] at h
      simp only [h, Bool.false_eq_true, if_false]
      omega

/-- C1 (amended): the end-of-year reconstruction returns None when every
ledger entry passes the in-window-for-the-target-account filter (so no
entry — dated on or before the boundary, or belonging to another account —
ever sets the sufficient-history flag), and likewise returns None when zero
in-window transactions for the target account exist in the ledger. -/
theorem c1_insufficient_history (transactions : List Transaction) (previous_year : ℤ)
    (traditional_acct_num : ℕ) (trad_holdings : ShareValues) (distributions : ℕ → ℚ)
    (h : (∀ t ∈ transactions, in_window previous_year traditional_acct_num t = true)
      ∨ transactions.countP (in_window previous_year traditional_acct_num) = 0) :
    eoy_traditional_holdings transactions previous_year traditional_acct_num
      trad_holdings distributions = none := by
  unfold eoy_traditional_holdings
  rcases h with hall | hzero
  · rw [if_pos]
    rw [eoy_fold_enough]
    simp only [Bool.false_or, List.any_eq_false]
    intro t hmem
    simp [hall t hmem]
  · by_cases he :
      (transactions.foldl (eoy_step previous_year (previous_year + 365)
        traditional_acct_num) ⟨trad_holdings, distributions, false, 0⟩).enough_transaction
        = false
    · rw [if_pos he]
    · rw [if_neg he, if_pos]
      rw [eoy_fold_count]
      simp [hzero]

/-- Witness for C1 (amended) at a concrete single-entry ledger with zero
in-window transactions. -/
theorem c1_witness :
    eoy_traditional_holdings c1w_ledger 0 1 ShareValues.new (fun _ => 0) = none :=
  c1_insufficient_history c1w_ledger 0 1 ShareValues.new (fun _ => 0)
    (Or.inr (by norm_num [c1w_ledger, in_window, List.countP, List.countP.go]))

/-- C1 counterexample: a ledger with zero entries dated before (or on) the
prior-year boundary still yields a numeric snapshot, because an
after-boundary transaction of a different account sets the
sufficient-history flag. -/
theorem c1_claim_counterexample :
    (∀ t ∈ c1_ledger, 0 < t.trade_date)
    ∧ (eoy_traditional_holdings c1_ledger 0 1 ShareValues.new (fun _ => 0)).isSome
      = true := by
  constructor
  · intro t hmem
    simp only [c1_ledger, List.mem_cons, List.mem_singleton] at hmem
    rcases hmem with h | h | h
    · rw [h]; norm_num
    · rw [h]; norm_num
    · cases h
  · simp [eoy_traditional_holdings, c1_ledger, eoy_step,
      ShareValues.subtract_stock_value]

/-- C8: during the ledger replay, an in-window transaction of the target
account subtracts its net cash amount from the Cash bucket when its symbol
is VMFXX, subtracts its share count from the symbol's bucket for any other
resolvable symbol, and for a symbol-less Distribution dated before the
boundary plus 365 days accumulates the negation of its net amount into the
per-account distributions total while leaving the snapshot unchanged. -/
theorem c8_replay_effects (previous_year : ℤ) (acct : ℕ) (st : EoyState)
    (t : Transaction) (hdate : previous_year < t.trade_date)
    (hacct : t.account_number = acct) :
    (t.symbol = StockSymbol.VMFXX →
      (eoy_step previous_year (previous_year + 365) acct st t).eoy_holdings
        = st.eoy_holdings.subtract_stock_value StockSymbol.VMFXX t.net_amount
      ∧ (eoy_step previous_year (previous_year + 365) acct st t).distributions
        = st.distributions)
    ∧ (t.symbol ≠ StockSymbol.VMFXX → t.symbol ≠ StockSymbol.Empty →
      (eoy_step previous_year (previous_year + 365) acct st t).eoy_holdings
        = st.eoy_holdings.subtract_stock_value t.symbol t.shares
      ∧ (eoy_step previous_year (previous_year + 365) acct st t).distributions
        = st.distributions)
    ∧ (t.symbol = StockSymbol.Empty →
      t.transaction_type = TransactionType.DISTRIBUTION →
      t.trade_date < previous_year + 365 →
      (eoy_step previous_year (previous_year + 365) acct st t).eoy_holdings
        = st.eoy_holdings
      ∧ (eoy_step previous_year (previous_year + 365) acct st t).distributions acct
        = st.distributions acct - t.net_amount) := by
  unfold eoy_step
  rw [if_pos ⟨hdate, hacct⟩]
  refine ⟨?_, ?_, ?_⟩
  · intro hsym
    rw [if_pos hsym]
    exact ⟨by rw [hsym], rfl⟩
  · intro hsym hne
    rw [if_neg hsym, if_pos hne]
    exact ⟨rfl, rfl⟩
  · intro hsym hkind hwindow
    have hne : ¬ t.symbol = StockSymbol.VMFXX := by rw [hsym]; intro hx; cases hx
    rw [if_neg hne, if_neg (by rw [hsym]; intro hx; exact hx rfl), if_pos hkind,
      if_pos hwindow]
    refine ⟨rfl, ?_⟩
    dsimp only
    rw [hacct]
    simp

/-- Witness for C8 at a concrete in-window cash transaction. -/
theorem c8_witness :
    (eoy_step 0 (0 + 365) 1 ⟨ShareValues.new, fun _ => 0, false, 0⟩
        { account_number := 1, trade_date := 5, symbol := .VMFXX, shares := 0
          net_amount := 250, transaction_type := .SWEEPIN }).eoy_holdings
      = ShareValues.new.subtract_stock_value StockSymbol.VMFXX 250
    ∧ (eoy_step 0 (0 + 365) 1 ⟨ShareValues.new, fun _ => 0, false, 0⟩
        { account_number := 1, trade_date := 5, symbol := .VMFXX, shares := 0
          net_amount := 250, transaction_type := .SWEEPIN }).distributions
      = fun _ => 0 := by
  have h := c8_replay_effects 0 1 ⟨ShareValues.new, fun _ => 0, false, 0⟩
    { account_number := 1, trade_date := 5, symbol := .VMFXX, shares := 0
      net_amount := 250, transaction_type := .SWEEPIN } (by norm_num) rfl
  exact h.1 rfl

/-- C9 (amended): the combined-retirement target vector is present in a
successful retirement_calc result only when at least one participating
account holds nonzero value — a retirement-role account (traditional or
Roth), or the brokerage account when it is folded into the retirement
pool. -/
theorem c9_target_presence (year this_year : ℤ) (roth_holdings : ShareValues)
    (rus rub ris rib rcash : ℚ) (traditional_holdings : ShareValues)
    (tus tub tis tib tcash : ℚ) (ubr : Bool) (brokerage_holdings : ShareValues)
    (bus bub bis bib bcash : ℚ) (stock_quotes : ShareValues)
    (out : Option AccountHoldings × Option AccountHoldings × Option AccountHoldings
      × Option ShareValues)
    (hok : retirement_calc year this_year roth_holdings rus rub ris rib rcash
        traditional_holdings tus tub tis tib tcash ubr brokerage_holdings
        bus bub bis bib bcash stock_quotes = .ok out)
    (hsome : out.2.2.2.isSome = true) :
    roth_holdings.total_value ≠ 0 ∨ traditional_holdings.total_value ≠ 0
      ∨ (ubr = true ∧ brokerage_holdings.total_value ≠ 0) := by
  by_contra hcon
  push_neg at hcon
  obtain ⟨h1, h2, h3⟩ := hcon
  unfold retirement_calc at hok
  cases hm : (Allocations.retirement year this_year).bind SubAllocations.new_custom with
  | error e =>
    rw [hm] at hok
    cases hok
  | ok sub =>
    rw [hm] at hok
    have hdr : decide (roth_holdings.total_value ≠ 0) = false := by simp [h1]
    have hdt : decide (traditional_holdings.total_value ≠ 0) = false := by simp [h2]
    have hdb : (ubr && decide (brokerage_holdings.total_value ≠ 0)) = false := by
      cases hu : ubr
      · simp
      · simp [h3 hu]
    simp only [hdr, hdt, hdb, Bool.false_eq_true, if_false, Bool.or_self,
      Bool.or_false, Bool.false_or] at hok
    simp only [Except.ok.injEq] at hok
    rw [← hok] at hsome
    simp at hsome

/-- C9 counterexample: with both retirement-role accounts empty and the
brokerage account folded into the retirement pool, retirement_calc succeeds
and the combined-retirement target vector is present. -/
theorem c9_claim_counterexample :
    ShareValues.new.total_value = 0
    ∧ ((retirement_calc 2990 2000 ShareValues.new 0 0 0 0 0 ShareValues.new 0 0 0 0 0 true
        c9_brokerage 0 0 0 0 0 ShareValues.new_quote).map
          (fun out => out.2.2.2.isSome)) = .ok true := by
  constructor
  · norm_num [ShareValues.new, ShareValues.total_value]
  · norm_num [retirement_calc, retirement_target_overall, Allocations.retirement,
      SubAllocations.new_custom, new_custom_sum, EACH_US_STOCK, US_STOCK_FRACTION,
      US_TOT_BOND_FRACTION, US_CORP_BOND_FRACTION, US_BOND_FRACTION, INT_TOTAL,
      INT_STOCK_FRACTION, INT_EMERGING, INT_BOND_FRACTION, ShareValues.new_target,
      cash_folded, ShareValues.add_stock_value, ShareValues.stock_value,
      ShareValues.total_value, ShareValues.new, ShareValues.new_quote, c9_brokerage,
      mkSV, risk_walk, HIGH_TO_LOW_RISK, min_def, Except.bind, Except.map,
      ShareValues.sub_def, ShareValues.div_def, List.reverse_cons, List.reverse_nil]

/-- Witness for C9 (amended) at a concrete traditional-only run. -/
theorem c9_witness :
    ShareValues.new.total_value ≠ 0 ∨ c9w_trad.total_value ≠ 0
      ∨ (false = true ∧ ShareValues.new.total_value ≠ 0) :=
  c9_target_presence 2990 2000 ShareValues.new 0 0 0 0 0 c9w_trad 0 0 0 0 0 false
    ShareValues.new 0 0 0 0 0 ShareValues.new_quote
    (some c9w_ta, none, none, some c9w_shared)
    (by norm_num [retirement_calc, retirement_target_overall, Allocations.retirement,
      SubAllocations.new_custom, new_custom_sum, EACH_US_STOCK, US_STOCK_FRACTION,
      US_TOT_BOND_FRACTION, US_CORP_BOND_FRACTION, US_BOND_FRACTION, INT_TOTAL,
      INT_STOCK_FRACTION, INT_EMERGING, INT_BOND_FRACTION, ShareValues.new_target,
      cash_folded, ShareValues.add_stock_value, ShareValues.stock_value,
      ShareValues.total_value, ShareValues.new, ShareValues.new_quote, c9w_trad,
      c9w_ta, c9w_shared, mkSV, risk_walk, HIGH_TO_LOW_RISK, min_def, Except.bind,
      ShareValues.sub_def, ShareValues.div_def])
    rfl

/-- C2: in a successful combined run with all three accounts participating,
the Roth target is the greedy walk of the shared target over the nine
buckets in the claimed high-to-low-risk order capped by the Roth total, the
brokerage target is the same walk in exactly the reverse order capped by
the brokerage total, and the traditional target is the shared target minus
the Roth target minus the brokerage target. -/
theorem c2_risk_location_partition (year this_year : ℤ)
    (roth_holdings : ShareValues) (rus rub ris rib rcash : ℚ)
    (traditional_holdings : ShareValues) (tus tub tis tib tcash : ℚ)
    (brokerage_holdings : ShareValues) (bus bub bis bib bcash : ℚ)
    (stock_quotes : ShareValues)
    (hr : roth_holdings.total_value ≠ 0)
    (ht : traditional_holdings.total_value ≠ 0)
    (hb : brokerage_holdings.total_value ≠ 0)
    (ta ra ba : AccountHoldings) (shared : ShareValues)
    (hok : retirement_calc year this_year roth_holdings rus rub ris rib rcash
        traditional_holdings tus tub tis tib tcash true brokerage_holdings
        bus bub bis bib bcash stock_quotes
      = .ok (some ta, some ra, some ba, some shared)) :
    ra.target = claim_greedy shared CLAIM_RISK_ORDER
        (cash_folded roth_holdings rcash).total_value ShareValues.new
    ∧ ba.target = claim_greedy shared CLAIM_RISK_ORDER.reverse
        (cash_folded brokerage_holdings bcash).total_value ShareValues.new
    ∧ ta.target = shared - ra.target - ba.target := by
  unfold retirement_calc at hok
  cases hm : (Allocations.retirement year this_year).bind SubAllocations.new_custom with
  | error e =>
    rw [hm] at hok
    cases hok
  | ok sub =>
    rw [hm] at hok
    have hdr : decide (roth_holdings.total_value ≠ 0) = true := decide_eq_true hr
    have hdt : decide (traditional_holdings.total_value ≠ 0) = true := decide_eq_true ht
    have hdb : decide (brokerage_holdings.total_value ≠ 0) = true := decide_eq_true hb
    simp only [hdr, hdt, hdb, Bool.true_and, Bool.or_self, Bool.true_or, Bool.or_true,
      if_true] at hok
    split at hok
    · cases hok
    · rename_i x1 o1 rem1 heq1
      split at hok
      · cases hok
      · rename_i x2 o2 rem2 heq2
        split at heq1
        · cases heq1
        · split at heq1
          · cases heq1
          · split at heq2
            · cases heq2
            · split at heq2
              · cases heq2
              · simp only [Except.ok.injEq, Prod.mk.injEq] at heq1 heq2
                obtain ⟨ho1, hrem1⟩ := heq1
                obtain ⟨ho2, hrem2⟩ := heq2
                subst ho1
                subst ho2
                subst hrem1
                subst hrem2
                simp only [Except.ok.injEq, Prod.mk.injEq, Option.some.injEq] at hok
                obtain ⟨hta, hok2⟩ := hok
                obtain ⟨hra, hok3⟩ := hok2
                obtain ⟨hba, hshared⟩ := hok3
                refine ⟨?_, ?_, ?_⟩
                · rw [← hra]
                  dsimp only
                  rw [risk_walk_fst, hshared]
                  rfl
                · rw [← hba]
                  dsimp only
                  rw [risk_walk_fst, hshared]
                  rfl
                · rw [← hta, ← hra, ← hba, ← hshared]

/-- Witness for C2 at a concrete three-account run (100 in cash in each
account, retirement year 2990 from year 2000). -/
theorem c2_witness :
    c2w_ra.target = claim_greedy c2w_shared CLAIM_RISK_ORDER
        (cash_folded cw_roth 0).total_value ShareValues.new
    ∧ c2w_ba.target = claim_greedy c2w_shared CLAIM_RISK_ORDER.reverse
        (cash_folded cw_roth 0).total_value ShareValues.new
    ∧ c2w_ta.target = c2w_shared - c2w_ra.target - c2w_ba.target :=
  c2_risk_location_partition 2990 2000 cw_roth 0 0 0 0 0 cw_roth 0 0 0 0 0
    cw_roth 0 0 0 0 0 ShareValues.new_quote
    (by norm_num [cw_roth, mkSV, ShareValues.total_value])
    (by norm_num [cw_roth, mkSV, ShareValues.total_value])
    (by norm_num [cw_roth, mkSV, ShareValues.total_value])
    c2w_ta c2w_ra c2w_ba c2w_shared
    (by norm_num [retirement_calc, retirement_target_overall, Allocations.retirement,
      SubAllocations.new_custom, new_custom_sum, EACH_US_STOCK, US_STOCK_FRACTION,
      US_TOT_BOND_FRACTION, US_CORP_BOND_FRACTION, US_BOND_FRACTION, INT_TOTAL,
      INT_STOCK_FRACTION, INT_EMERGING, INT_BOND_FRACTION, ShareValues.new_target,
      cash_folded, ShareValues.add_stock_value, ShareValues.stock_value,
      ShareValues.total_value, ShareValues.new, ShareValues.new_quote, cw_roth,
      c2w_ta, c2w_ra, c2w_ba, c2w_shared, mkSV, risk_walk, HIGH_TO_LOW_RISK, min_def,
      Except.bind, ShareValues.sub_def, ShareValues.div_def, List.reverse_cons,
      List.reverse_nil])

/-- C3: after the per-account partition of a participating account, the
rebalance fails with a validation error — no result is produced — when the
ordered walk leaves a positive unconsumed leftover, or when the partitioned
target's total does not land strictly within ±1 percent of that account's
cash-folded current total value. -/
theorem c3_partition_validation (year this_year : ℤ)
    (roth_holdings : ShareValues) (rus rub ris rib rcash : ℚ)
    (traditional_holdings : ShareValues) (tus tub tis tib tcash : ℚ)
    (ubr : Bool)
    (brokerage_holdings : ShareValues) (bus bub bis bib bcash : ℚ)
    (stock_quotes : ShareValues) (sub : SubAllocations)
    (hsub : (Allocations.retirement year this_year).bind SubAllocations.new_custom
      = .ok sub) :
    (roth_holdings.total_value ≠ 0 →
      (0 < (risk_walk (retirement_target_overall sub roth_holdings rus rub ris rib rcash
            traditional_holdings tus tub tis tib tcash ubr brokerage_holdings
            bus bub bis bib bcash) HIGH_TO_LOW_RISK
            (cash_folded roth_holdings rcash).total_value ShareValues.new).2
        ∨ ¬((risk_walk (retirement_target_overall sub roth_holdings rus rub ris rib rcash
            traditional_holdings tus tub tis tib tcash ubr brokerage_holdings
            bus bub bis bib bcash) HIGH_TO_LOW_RISK
            (cash_folded roth_holdings rcash).total_value ShareValues.new).1.total_value
              > 0.99 * (cash_folded roth_holdings rcash).total_value
          ∧ (risk_walk (retirement_target_overall sub roth_holdings rus rub ris rib rcash
            traditional_holdings tus tub tis tib tcash ubr brokerage_holdings
            bus bub bis bib bcash) HIGH_TO_LOW_RISK
            (cash_folded roth_holdings rcash).total_value ShareValues.new).1.total_value
              < 1.01 * (cash_folded roth_holdings rcash).total_value)) →
      ∃ e, retirement_calc year this_year roth_holdings rus rub ris rib rcash
        traditional_holdings tus tub tis tib tcash ubr brokerage_holdings
        bus bub bis bib bcash stock_quotes = .error e)
    ∧ (ubr = true → brokerage_holdings.total_value ≠ 0 →
      (0 < (risk_walk (retirement_target_overall sub roth_holdings rus rub ris rib rcash
            traditional_holdings tus tub tis tib tcash true brokerage_holdings
            bus bub bis bib bcash) HIGH_TO_LOW_RISK.reverse
            (cash_folded brokerage_holdings bcash).total_value ShareValues.new).2
        ∨ ¬((risk_walk (retirement_target_overall sub roth_holdings rus rub ris rib rcash
            traditional_holdings tus tub tis tib tcash true brokerage_holdings
            bus bub bis bib bcash) HIGH_TO_LOW_RISK.reverse
            (cash_folded brokerage_holdings bcash).total_value ShareValues.new).1.total_value
              > 0.99 * (cash_folded brokerage_holdings bcash).total_value
          ∧ (risk_walk (retirement_target_overall sub roth_holdings rus rub ris rib rcash
            traditional_holdings tus tub tis tib tcash true brokerage_holdings
            bus bub bis bib bcash) HIGH_TO_LOW_RISK.reverse
            (cash_folded brokerage_holdings bcash).total_value ShareValues.new).1.total_value
              < 1.01 * (cash_folded brokerage_holdings bcash).total_value)) →
      ∃ e, retirement_calc year this_year roth_holdings rus rub ris rib rcash
        traditional_holdings tus tub tis tib tcash true brokerage_holdings
        bus bub bis bib bcash stock_quotes = .error e) := by
  constructor
  · intro hr hfail
    unfold retirement_calc
    rw [hsub]
    simp only [decide_eq_true hr, if_true]
    by_cases hL : (risk_walk (retirement_target_overall sub roth_holdings rus rub ris rib
        rcash traditional_holdings tus tub tis tib tcash ubr brokerage_holdings
        bus bub bis bib bcash) HIGH_TO_LOW_RISK
        (cash_folded roth_holdings rcash).total_value ShareValues.new).2 ≠ 0
    · exact ⟨"Unexpected leftover roth cash", by rw [if_pos hL]⟩
    · have hband : ¬((risk_walk (retirement_target_overall sub roth_holdings rus rub ris
          rib rcash traditional_holdings tus tub tis tib tcash ubr brokerage_holdings
          bus bub bis bib bcash) HIGH_TO_LOW_RISK
          (cash_folded roth_holdings rcash).total_value ShareValues.new).1.total_value
            > 0.99 * (cash_folded roth_holdings rcash).total_value
        ∧ (risk_walk (retirement_target_overall sub roth_holdings rus rub ris rib rcash
          traditional_holdings tus tub tis tib tcash ubr brokerage_holdings
          bus bub bis bib bcash) HIGH_TO_LOW_RISK
          (cash_folded roth_holdings rcash).total_value ShareValues.new).1.total_value
            < 1.01 * (cash_folded roth_holdings rcash).total_value) := by
        rcases hfail with h | h
        · exact absurd (ne_of_gt h) hL
        · exact h
      exact ⟨"Roth target and total do not match", by rw [if_neg hL, if_pos hband]⟩
  · intro hubr hbv hfail
    subst hubr
    unfold retirement_calc
    rw [hsub]
    simp only [decide_eq_true hbv, Bool.true_and, if_true]
    by_cases hir : roth_holdings.total_value ≠ 0
    · simp only [decide_eq_true hir, if_true]
      by_cases hL1 : (risk_walk (retirement_target_overall sub roth_holdings rus rub ris
          rib rcash traditional_holdings tus tub tis tib tcash true brokerage_holdings
          bus bub bis bib bcash) HIGH_TO_LOW_RISK
          (cash_folded roth_holdings rcash).total_value ShareValues.new).2 ≠ 0
      · exact ⟨"Unexpected leftover roth cash", by rw [if_pos hL1]⟩
      · rw [if_neg hL1]
        by_cases hB1 : ¬((risk_walk (retirement_target_overall sub roth_holdings rus rub
            ris rib rcash traditional_holdings tus tub tis tib tcash true
            brokerage_holdings bus bub bis bib bcash) HIGH_TO_LOW_RISK
            (cash_folded roth_holdings rcash).total_value ShareValues.new).1.total_value
              > 0.99 * (cash_folded roth_holdings rcash).total_value
          ∧ (risk_walk (retirement_target_overall sub roth_holdings rus rub ris rib rcash
            traditional_holdings tus tub tis tib tcash true brokerage_holdings
            bus bub bis bib bcash) HIGH_TO_LOW_RISK
            (cash_folded roth_holdings rcash).total_value ShareValues.new).1.total_value
              < 1.01 * (cash_folded roth_holdings rcash).total_value)
        · exact ⟨"Roth target and total do not match", by rw [if_pos hB1]⟩
        · rw [if_neg hB1]
          dsimp only
          rcases hfail with h | h
          · exact ⟨"Unexpected leftover brokerage cash", by rw [if_pos (ne_of_gt h)]⟩
          · by_cases hL2 : (risk_walk (retirement_target_overall sub roth_holdings rus
                rub ris rib rcash traditional_holdings tus tub tis tib tcash true
                brokerage_holdings bus bub bis bib bcash) HIGH_TO_LOW_RISK.reverse
                (cash_folded brokerage_holdings bcash).total_value ShareValues.new).2 ≠ 0
            · exact ⟨"Unexpected leftover brokerage cash", by rw [if_pos hL2]⟩
            · exact ⟨"brokerage target and total do not match",
                by rw [if_neg hL2, if_pos h]⟩
    · simp only [decide_eq_false hir, Bool.false_eq_true, if_false]
      rcases hfail with h | h
      · exact ⟨"Unexpected leftover brokerage cash", by rw [if_pos (ne_of_gt h)]⟩
      · by_cases hL2 : (risk_walk (retirement_target_overall sub roth_holdings rus rub
            ris rib rcash traditional_holdings tus tub tis tib tcash true
            brokerage_holdings bus bub bis bib bcash) HIGH_TO_LOW_RISK.reverse
            (cash_folded brokerage_holdings bcash).total_value ShareValues.new).2 ≠ 0
        · exact ⟨"Unexpected leftover brokerage cash", by rw [if_pos hL2]⟩
        · exact ⟨"brokerage target and total do not match", by rw [if_neg hL2, if_pos h]⟩

/-- Witness for C3 at a concrete run where a negative-cash traditional account
leaves the ordered Roth walk with a positive unconsumed leftover. -/
theorem c3_witness :
    ∃ e, retirement_calc 2990 2000 cw_roth 0 0 0 0 0 c3_trad 0 0 0 0 0 false
      ShareValues.new 0 0 0 0 0 ShareValues.new_quote = .error e :=
  (c3_partition_validation 2990 2000 cw_roth 0 0 0 0 0 c3_trad 0 0 0 0 0 false
    ShareValues.new 0 0 0 0 0 ShareValues.new_quote
    (SubAllocations.mk 20 20 20 (10/3) (10/3) 20 10 (10/3) 0)
    (by norm_num [Allocations.retirement, SubAllocations.new_custom, new_custom_sum,
      EACH_US_STOCK, US_STOCK_FRACTION, US_TOT_BOND_FRACTION, US_CORP_BOND_FRACTION,
      US_BOND_FRACTION, INT_TOTAL, INT_STOCK_FRACTION, INT_EMERGING, INT_BOND_FRACTION,
      Except.bind])).1
    (by norm_num [cw_roth, mkSV, ShareValues.total_value])
    (Or.inl (by norm_num [retirement_target_overall, ShareValues.new_target,
      cash_folded, ShareValues.add_stock_value, ShareValues.stock_value,
      ShareValues.total_value, ShareValues.new, cw_roth, c3_trad, mkSV, risk_walk,
      HIGH_TO_LOW_RISK, min_def]))

end Vapore

